import Mathlib

/-!
Shallow embedding of `src/indi-gpsnmea/gpsnmea_driver.cpp` (INDI GPS NMEA
driver).  The driver's shared mutable state (location/time INDI properties,
pending flags, timeout counter, connection flag) is modelled as an explicit
record `DriverState`; the thread body `parseNEMA` is modelled as a step
function on that record driven by a list of read results; `updateGPS` is a
pure function from state to (return code, new state).  Double-valued
properties are modelled as rationals.  The minmea library is not part of the
repository sources given here, so its decoded frames, `minmea_gettime` and
the checksum decoder are modelled from the specification, as marked on each
such definition.
-/

set_option maxHeartbeats 1000000

/-- INDI property state codes, as used by `updateGPS` (`IPS_OK` / `IPS_BUSY`)
and the GSA status property. -/
inductive IPState
  | IPS_IDLE
  | IPS_OK
  | IPS_BUSY
  | IPS_ALERT
deriving Repr, DecidableEq

/-- Latest-fix record: the driver's UI-facing fields.  `latitude`,
`longitude`, `elevation` model `LocationNP[LOCATION_*].value`;
`utcTimestamp` models the epoch value behind the `TimeTP[0]` text;
`utcOffset` models the `local->tm_gmtoff / 3600.0` value behind `TimeTP[1]`;
`fixLabel` and `fixStatus` model `GPSstatusT[0]` / `GPSstatusTP.s`. -/
structure FixState where
  latitude : Rat
  longitude : Rat
  elevation : Rat
  utcTimestamp : Int
  utcOffset : Rat
  fixLabel : String
  fixStatus : IPState
deriving Repr, DecidableEq

/-- Driver state shared between the external request path and the
acquisition thread: the fix record, the two mutex-guarded pending flags, the
`timeoutCounter` member, the connection flag (`isConnected()` /
`setConnected`), and the last value passed to the `setSystemTime`
collaborator (`none` when it was never invoked). -/
structure DriverState where
  fix : FixState
  locationPending : Bool
  timePending : Bool
  timeoutCounter : Nat
  connected : Bool
  systemClock : Option Int
deriving Repr, DecidableEq

/-- GPSNMEA::updateGPS (gpsnmea_driver.cpp lines 104-118): under the lock,
if both pending flags are false set both to true and return `IPS_OK`;
otherwise return the initial `IPS_BUSY` with the state untouched. -/
def updateGPS (s : DriverState) : IPState × DriverState :=
  if s.locationPending = false ∧ s.timePending = false then
    (IPState.IPS_OK, { s with locationPending := true, timePending := true })
  else
    (IPState.IPS_BUSY, s)

/-- Date fields of a decoded minmea frame (`struct minmea_date`); a missing
field is the sentinel `-1`. -/
structure MinmeaDate where
  day : Int
  month : Int
  year : Int
deriving Repr, DecidableEq

/-- Time-of-day fields of a decoded minmea frame (`struct minmea_time`); a
missing field is the sentinel `-1`. -/
structure MinmeaTime where
  hours : Int
  minutes : Int
  seconds : Int
  microseconds : Int
deriving Repr, DecidableEq

/-- Modelled from the spec: the external epoch computation (`timegm` inside
minmea, not under src/).  Claims never depend on the concrete epoch value,
only on whether a derived time is applied, so a simple injective-enough
schedule of the date/time fields serves as the collaborator's output. -/
def epochOf (d : MinmeaDate) (t : MinmeaTime) : Int :=
  ((d.year * 372 + (d.month - 1) * 31 + (d.day - 1)) * 86400)
    + t.hours * 3600 + t.minutes * 60 + t.seconds

/-- Modelled from the spec: `minmea_gettime` (minmea, not under src/)
derives epoch time from a frame's date and time fields and fails (returns
`-1` in C, `none` here) on an invalid combination, i.e. when the date or
time carries the missing-field sentinel. -/
def minmea_gettime (d : MinmeaDate) (t : MinmeaTime) : Option Int :=
  if d.year = -1 ∨ t.hours = -1 then none else some (epochOf d t)

/-- Longitude normalization as written in the source: after assigning the
decoded coordinate, `if (value < 0) value += 360`. -/
def normalizeLon (x : Rat) : Rat :=
  if x < 0 then x + 360 else x

/-- Decoded `$xxRMC` frame fields the driver reads (`struct
minmea_sentence_rmc`); coordinates are the `minmea_tocoord` results in
degrees, modelled as rationals. -/
structure RMCFrame where
  valid : Bool
  latitude : Rat
  longitude : Rat
  date : MinmeaDate
  time : MinmeaTime
deriving Repr, DecidableEq

/-- Decoded `$xxGGA` frame fields the driver reads (`struct
minmea_sentence_gga`). -/
structure GGAFrame where
  time : MinmeaTime
  fix_quality : Int
  latitude : Rat
  longitude : Rat
  altitude : Rat
deriving Repr, DecidableEq

/-- Decoded `$xxGSA` frame field the driver reads. -/
structure GSAFrame where
  fix_type : Int
deriving Repr, DecidableEq

/-- Decoded `$xxZDA` frame fields the driver reads. -/
structure ZDAFrame where
  time : MinmeaTime
  date : MinmeaDate
  hour_offset : Int
  minute_offset : Int
deriving Repr, DecidableEq

/-- Sentence union produced by the decoder: a typed frame, `invalid`
(unknown id or bad checksum, `MINMEA_INVALID`), or `unparsed` (recognized id
whose per-type structural parse failed, or a type the driver ignores). -/
inductive Sentence
  | rmc (f : RMCFrame)
  | gga (f : GGAFrame)
  | gsa (f : GSAFrame)
  | zda (f : ZDAFrame)
  | invalid
  | unparsed
deriving Repr, DecidableEq

/-- Environment of one processing step: `nowDate` is the current system UTC
calendar date the GGA path synthesizes via `time`/`gmtime` (GGA sentences
carry no date); `gmtoff` is the host local-timezone offset in seconds
(`local->tm_gmtoff`); `junk` is the indeterminate stack content of the
`timespec` local that the GGA and ZDA paths read without checking the
`minmea_gettime` return value, so it is what gets applied when derivation
fails on those paths. -/
structure Env where
  nowDate : MinmeaDate
  gmtoff : Int
  junk : Int
deriving Repr, DecidableEq

/-- UTC-offset value published to `TimeTP[1]`: `tm_gmtoff / 3600.0`. -/
def offsetHours (gmtoff : Int) : Rat :=
  (gmtoff : Rat) / 3600

/-- Fix Extractor: the body of the `switch (minmea_sentence_id(line, false))`
in GPSNMEA::parseNEMA (gpsnmea_driver.cpp lines 193-372), one decoded
sentence in, updated driver state out.
RMC (lines 195-237): only if `frame.valid`; writes latitude and normalized
longitude first, then checks `minmea_gettime` and on failure breaks out of
the case (location already written); on success publishes time, calls
`setSystemTime`, and clears both pending flags under the lock.
GGA (lines 239-288): only if `frame.fix_quality == 1`; writes location and
elevation, synthesizes the date from the system clock, derives time without
checking the `minmea_gettime` result, publishes it, calls `setSystemTime`,
and clears both pending flags.
GSA (lines 290-318): updates only the textual fix label and its property
state for fix types 1/2/3.
ZDA (lines 319-360): derives time from the frame's own date/time without
checking the `minmea_gettime` result, publishes it, calls `setSystemTime`,
and clears only `timePending`.
`invalid` and unparsed/ignored sentences leave the state untouched. -/
def processSentence (env : Env) (s : DriverState) : Sentence → DriverState
  | Sentence.rmc f =>
    if f.valid then
      let sloc : DriverState :=
        { s with fix := { s.fix with
                            latitude := f.latitude,
                            longitude := normalizeLon f.longitude } }
      match minmea_gettime f.date f.time with
      | none => sloc
      | some raw =>
        { sloc with
            fix := { sloc.fix with
                       utcTimestamp := raw,
                       utcOffset := offsetHours env.gmtoff },
            systemClock := some raw,
            locationPending := false,
            timePending := false }
    else s
  | Sentence.gga f =>
    if f.fix_quality = 1 then
      let raw : Int := (minmea_gettime env.nowDate f.time).getD env.junk
      { s with
          fix := { s.fix with
                     latitude := f.latitude,
                     longitude := normalizeLon f.longitude,
                     elevation := f.altitude,
                     utcTimestamp := raw,
                     utcOffset := offsetHours env.gmtoff },
          systemClock := some raw,
          locationPending := false,
          timePending := false }
    else s
  | Sentence.gsa f =>
    if f.fix_type = 1 then
      { s with fix := { s.fix with fixLabel := "NO FIX",
                                   fixStatus := IPState.IPS_BUSY } }
    else if f.fix_type = 2 then
      { s with fix := { s.fix with fixLabel := "2D FIX",
                                   fixStatus := IPState.IPS_OK } }
    else if f.fix_type = 3 then
      { s with fix := { s.fix with fixLabel := "3D FIX",
                                   fixStatus := IPState.IPS_OK } }
    else s
  | Sentence.zda f =>
    let raw : Int := (minmea_gettime f.date f.time).getD env.junk
    { s with
        fix := { s.fix with
                   utcTimestamp := raw,
                   utcOffset := offsetHours env.gmtoff },
        systemClock := some raw,
        timePending := false }
  | Sentence.invalid => s
  | Sentence.unparsed => s

/-- Modelled from the spec: hexadecimal digit value (`hex2int` inside
minmea, not under src/). -/
def hexVal (c : Char) : Option Nat :=
  if '0' ≤ c ∧ c ≤ '9' then some (c.toNat - 48)
  else if 'A' ≤ c ∧ c ≤ 'F' then some (c.toNat - 55)
  else if 'a' ≤ c ∧ c ≤ 'f' then some (c.toNat - 87)
  else none

/-- Splits the characters after the leading sentinel into the part before
the first `*` and the part after it; `none` when there is no `*`. -/
def splitAtStar : List Char → Option (List Char × List Char)
  | [] => none
  | c :: rest =>
    if c = '*' then some ([], rest)
    else (splitAtStar rest).map (fun p => (c :: p.1, p.2))

/-- XOR checksum of a sentence body, per NMEA-0183. -/
def bodyChecksum (body : List Char) : Nat :=
  body.foldl (fun a c => a ^^^ c.toNat) 0

/-- Modelled from the spec: the checksum validation of `minmea_check`
(minmea, not under src/) for the wire format of section 6 — a line begins
with `$` and ends with a two-hex-digit checksum after `*` that must equal
the XOR of the body characters. -/
def minmea_check (line : List Char) : Bool :=
  match line with
  | '$' :: rest =>
    match splitAtStar rest with
    | some (body, [h, l]) =>
      match hexVal h, hexVal l with
      | some u, some v => bodyChecksum body == u * 16 + v
      | _, _ => false
    | _ => false
  | _ => false

/-- Modelled from the spec: the Sentence Decoder
(`minmea_sentence_id` + the per-type `minmea_parse_*`, not under src/).  A
line failing the checksum validation yields `invalid`; otherwise the
per-type field parse `typed` (kept abstract, it may yield any typed frame
or `unparsed`) produces the sentence. -/
def decodeSentence (typed : List Char → Sentence) (line : List Char) : Sentence :=
  if minmea_check line then typed line else Sentence.invalid

/-- One successfully read line pushed through Decoder then Extractor, as the
acquisition loop does in-line. -/
def processLine (env : Env) (typed : List Char → Sentence) (s : DriverState)
    (line : List Char) : DriverState :=
  processSentence env s (decodeSentence typed line)

/-- MAX_TIMEOUT_COUNT macro (gpsnmea_driver.cpp line 43). -/
def MAX_TIMEOUT_COUNT : Nat := 5

/-- Classified outcome of one `tty_nread_section` call in the loop: a full
line, `TTY_OVERFLOW`, `TTY_TIME_OUT`, `errno == ECONNREFUSED`, or any other
negative return. -/
inductive ReadResult
  | ok (line : List Char)
  | overflow
  | timeout
  | connRefused
  | otherError
deriving Repr, DecidableEq

/-- Observable outcome of one iteration of the `while (isConnected())` body:
the updated state, whether a transport disconnect+reconnect cycle was
driven, the seconds slept, and whether the loop body executed `break`. -/
structure IterOut where
  state : DriverState
  reconnected : Bool
  slept : Nat
  terminated : Bool
deriving Repr, DecidableEq

/-- One iteration of the GPSNMEA::parseNEMA loop body (gpsnmea_driver.cpp
lines 148-372) on a classified read result.
Overflow (lines 152-160): `setConnected(false)` and `break`.
ConnectionRefused (lines 167-174): disconnect, sleep 10 s, reconnect,
continue — the timeout counter is not touched.
Timeout (lines 175-185): `timeoutCounter++ > MAX_TIMEOUT_COUNT` compares the
old counter value then increments, so only when the old value already
exceeds the maximum does it disconnect, sleep 5 s, reconnect and zero the
counter; otherwise the loop just continues with the incremented counter.
Other negative returns (line 187): continue unchanged.
A successful read is dispatched through Decoder and Extractor in-line. -/
def loopStep (env : Env) (typed : List Char → Sentence) (s : DriverState) :
    ReadResult → IterOut
  | ReadResult.ok line =>
    { state := processLine env typed s line,
      reconnected := false, slept := 0, terminated := false }
  | ReadResult.overflow =>
    { state := { s with connected := false },
      reconnected := false, slept := 0, terminated := true }
  | ReadResult.connRefused =>
    { state := s, reconnected := true, slept := 10, terminated := false }
  | ReadResult.timeout =>
    if s.timeoutCounter > MAX_TIMEOUT_COUNT then
      { state := { s with timeoutCounter := 0 },
        reconnected := true, slept := 5, terminated := false }
    else
      { state := { s with timeoutCounter := s.timeoutCounter + 1 },
        reconnected := false, slept := 0, terminated := false }
  | ReadResult.otherError =>
    { state := s, reconnected := false, slept := 0, terminated := false }

/-- Accumulated observation of a run of the acquisition loop: final state,
number of transport reconnect cycles driven, total seconds slept, and
whether the loop has exited. -/
structure LoopTrace where
  state : DriverState
  reconnects : Nat
  sleepTotal : Nat
  terminated : Bool
deriving Repr, DecidableEq

/-- GPSNMEA::parseNEMA as a fold of `loopStep` over a finite schedule of
read results: the loop runs while `isConnected()` holds, stops consuming
input once an iteration executes `break`, and otherwise chains iterations. -/
def runLoop (env : Env) (typed : List Char → Sentence) :
    DriverState → List ReadResult → LoopTrace
  | s, [] => { state := s, reconnects := 0, sleepTotal := 0, terminated := false }
  | s, r :: rs =>
    if s.connected then
      let out := loopStep env typed s r
      if out.terminated then
        { state := out.state,
          reconnects := if out.reconnected then 1 else 0,
          sleepTotal := out.slept,
          terminated := true }
      else
        let t := runLoop env typed out.state rs
        { state := t.state,
          reconnects := (if out.reconnected then 1 else 0) + t.reconnects,
          sleepTotal := out.slept + t.sleepTotal,
          terminated := t.terminated }
    else
      { state := s, reconnects := 0, sleepTotal := 0, terminated := true }

/-- Modelled from the spec: well-formedness of a decoded longitude — the
NMEA-0183 wire format of section 6 carries longitudes of at most 180
degrees in magnitude, so the `minmea_tocoord` result of a well-formed
sentence lies in [-180, 180]. -/
def wellFormedLongitude (x : Rat) : Prop :=
  -180 ≤ x ∧ x ≤ 180

instance (x : Rat) : Decidable (wellFormedLongitude x) := by
  unfold wellFormedLongitude
  infer_instance

/-- Concrete fix record used by witnesses and counterexamples. -/
def fix0 : FixState :=
  { latitude := 0, longitude := 0, elevation := 0, utcTimestamp := 0,
    utcOffset := 0, fixLabel := "", fixStatus := IPState.IPS_IDLE }

/-- Concrete driver state used by witnesses and counterexamples. -/
def s0 : DriverState :=
  { fix := fix0, locationPending := false, timePending := false,
    timeoutCounter := 0, connected := true, systemClock := none }

/-- Concrete environment used by witnesses and counterexamples. -/
def env0 : Env :=
  { nowDate := { day := 23, month := 3, year := 94 }, gmtoff := 3600, junk := 0 }

/-- Concrete per-type parser used by witnesses and counterexamples. -/
def typed0 : List Char → Sentence := fun _ => Sentence.unparsed

/-- Concrete driver state with only `locationPending` set, as left behind by
an accepted refresh followed by one processed ZDA sentence. -/
def sMixed : DriverState := { s0 with locationPending := true }

/-- Auxiliary bound: the source's longitude normalization lands in [0, 360)
whenever the input lies in (-360, 360). -/
theorem normalizeLon_bounds (x : Rat) (h1 : -360 < x) (h2 : x < 360) :
    0 ≤ normalizeLon x ∧ normalizeLon x < 360 := by
  unfold normalizeLon
  split <;> constructor <;> linarith

/-- C1 counterexample: from the mixed state with only `locationPending` set
(reachable: accepted refresh, then a ZDA sentence clears only
`timePending`), two successive `updateGPS` calls leave the flags at
{true, false}, not {true, true}, refuting the claim's for-every-state
consequence. -/
theorem updateGPS_two_calls_cex :
    sMixed.locationPending = true ∧ sMixed.timePending = false ∧
    ¬ ((updateGPS (updateGPS sMixed).2).2.locationPending = true ∧
       (updateGPS (updateGPS sMixed).2).2.timePending = true) := by
  decide

/-- C1 (amended): `updateGPS` is an at-most-one-in-flight handshake — if
both flags are false it sets both and returns `IPS_OK`; if either is true
it returns `IPS_BUSY` leaving the state unchanged; the second of two
successive calls always returns `IPS_BUSY`; and whenever the two flags were
equal beforehand (both false or both true), two calls leave them at
{true, true}. -/
theorem updateGPS_handshake (s : DriverState) :
    (s.locationPending = false ∧ s.timePending = false →
       updateGPS s =
         (IPState.IPS_OK, { s with locationPending := true, timePending := true })) ∧
    ((s.locationPending = true ∨ s.timePending = true) →
       updateGPS s = (IPState.IPS_BUSY, s)) ∧
    (updateGPS (updateGPS s).2).1 = IPState.IPS_BUSY ∧
    (s.locationPending = s.timePending →
       (updateGPS (updateGPS s).2).2.locationPending = true ∧
       (updateGPS (updateGPS s).2).2.timePending = true) := by
  cases hl : s.locationPending <;> cases ht : s.timePending <;>
    simp [updateGPS, hl, ht]

/-- C1 witness: the handshake theorem applied at the all-clear state and at
the both-pending state. -/
theorem updateGPS_handshake_witness :
    updateGPS s0 =
      (IPState.IPS_OK, { s0 with locationPending := true, timePending := true }) ∧
    updateGPS { s0 with locationPending := true, timePending := true } =
      (IPState.IPS_BUSY, { s0 with locationPending := true, timePending := true }) ∧
    (updateGPS (updateGPS s0).2).2.locationPending = true ∧
    (updateGPS (updateGPS s0).2).2.timePending = true :=
  ⟨(updateGPS_handshake s0).1 (by decide),
   (updateGPS_handshake { s0 with locationPending := true, timePending := true }).2.1
     (by decide),
   ((updateGPS_handshake s0).2.2.2 (by decide)).1,
   ((updateGPS_handshake s0).2.2.2 (by decide)).2⟩

/-- C2: a well-formed RMC sentence with validity indicator true whose
date/time derivation succeeds clears both pending flags and leaves the
stored longitude in [0, 360) — a negative decoded longitude gains 360, a
non-negative one is stored as is. -/
theorem rmc_valid_clears_flags_lon_range (env : Env) (s : DriverState)
    (f : RMCFrame) (raw : Int) (hv : f.valid = true)
    (hg : minmea_gettime f.date f.time = some raw)
    (hwf : wellFormedLongitude f.longitude) :
    (processSentence env s (Sentence.rmc f)).locationPending = false ∧
    (processSentence env s (Sentence.rmc f)).timePending = false ∧
    0 ≤ (processSentence env s (Sentence.rmc f)).fix.longitude ∧
    (processSentence env s (Sentence.rmc f)).fix.longitude < 360 := by
  obtain ⟨h1, h2⟩ := hwf
  have hb := normalizeLon_bounds f.longitude (by linarith) (by linarith)
  simp [processSentence, hv, hg]
  exact hb

/-- Concrete valid RMC frame with a negative decoded longitude. -/
def rmcW : RMCFrame :=
  { valid := true, latitude := 10, longitude := -100,
    date := { day := 23, month := 3, year := 94 },
    time := { hours := 12, minutes := 35, seconds := 19, microseconds := 0 } }

/-- C2 witness: the RMC theorem applied at a concrete valid frame. -/
theorem rmc_valid_clears_flags_lon_range_witness :
    (processSentence env0 s0 (Sentence.rmc rmcW)).locationPending = false ∧
    (processSentence env0 s0 (Sentence.rmc rmcW)).timePending = false ∧
    0 ≤ (processSentence env0 s0 (Sentence.rmc rmcW)).fix.longitude ∧
    (processSentence env0 s0 (Sentence.rmc rmcW)).fix.longitude < 360 :=
  rmc_valid_clears_flags_lon_range env0 s0 rmcW
    (epochOf rmcW.date rmcW.time) (by decide) (by decide) (by decide)

/-- Concrete valid RMC frame whose date carries the missing-field sentinel,
so date/time derivation fails. -/
def rmcBadTime : RMCFrame :=
  { valid := true, latitude := 10, longitude := 20,
    date := { day := 23, month := 3, year := -1 },
    time := { hours := 12, minutes := 0, seconds := 0, microseconds := 0 } }

/-- C3 counterexample: an RMC sentence whose date/time derivation fails is
not discarded atomically — latitude and longitude were already overwritten
before the failed derivation check. -/
theorem rmc_gettime_fail_mutates_location_cex :
    minmea_gettime rmcBadTime.date rmcBadTime.time = none ∧
    (processSentence env0 s0 (Sentence.rmc rmcBadTime)).fix.latitude ≠
      s0.fix.latitude ∧
    (processSentence env0 s0 (Sentence.rmc rmcBadTime)).fix.longitude ≠
      s0.fix.longitude := by
  decide

/-- C3 (amended): on the RMC path — the only path that checks derivation —
a failed date/time derivation skips the time application: pending flags,
timestamp, UTC offset, elevation, fix label and system clock are all
untouched and processing continues; but latitude and longitude have already
been overwritten with the sentence's coordinates by then. -/
theorem rmc_gettime_fail_partial_discard (env : Env) (s : DriverState)
    (f : RMCFrame) (hv : f.valid = true)
    (hg : minmea_gettime f.date f.time = none) :
    processSentence env s (Sentence.rmc f) =
      { s with fix := { s.fix with latitude := f.latitude,
                                   longitude := normalizeLon f.longitude } } := by
  simp [processSentence, hv, hg]

/-- C3 witness: the partial-discard theorem applied at the concrete frame
with sentinel date. -/
theorem rmc_gettime_fail_partial_discard_witness :
    processSentence env0 s0 (Sentence.rmc rmcBadTime) =
      { s0 with fix := { s0.fix with
                           latitude := rmcBadTime.latitude,
                           longitude := normalizeLon rmcBadTime.longitude } } :=
  rmc_gettime_fail_partial_discard env0 s0 rmcBadTime (by decide) (by decide)

/-- Concrete GGA frame with fix quality 2 (a richer nonzero quality code,
e.g. differential fix). -/
def ggaQ2 : GGAFrame :=
  { time := { hours := 12, minutes := 35, seconds := 19, microseconds := 0 },
    fix_quality := 2, latitude := 48, longitude := 11, altitude := 545 }

/-- Concrete GGA frame with fix quality 1. -/
def ggaQ1 : GGAFrame := { ggaQ2 with fix_quality := 1 }

/-- Concrete driver state with both pending flags set (refresh in flight). -/
def sPend : DriverState := { s0 with locationPending := true, timePending := true }

/-- C4 counterexample: a GGA sentence with the richer nonzero fix quality 2
is rejected — the state is unchanged and the pending flags are not cleared,
refuting the claim that any richer nonzero quality code is treated the same
as quality 1. -/
theorem gga_quality_two_rejected_cex :
    ggaQ2.fix_quality = 2 ∧
    processSentence env0 sPend (Sentence.gga ggaQ2) = sPend ∧
    (processSentence env0 sPend (Sentence.gga ggaQ2)).locationPending ≠ false ∧
    (processSentence env0 sPend (Sentence.gga ggaQ2)).timePending ≠ false := by
  decide

/-- C4 (amended): the GGA gate is equality with 1 — quality 0 is rejected
leaving FixState entirely unchanged, quality 1 is accepted (location and
elevation applied, both pending flags cleared), and every quality other
than 1, richer nonzero codes included, is rejected exactly like 0. -/
theorem gga_fix_quality_gate (env : Env) (s : DriverState) (f : GGAFrame) :
    (f.fix_quality ≠ 1 → processSentence env s (Sentence.gga f) = s) ∧
    (f.fix_quality = 1 →
       (processSentence env s (Sentence.gga f)).locationPending = false ∧
       (processSentence env s (Sentence.gga f)).timePending = false ∧
       (processSentence env s (Sentence.gga f)).fix.latitude = f.latitude ∧
       (processSentence env s (Sentence.gga f)).fix.longitude =
         normalizeLon f.longitude ∧
       (processSentence env s (Sentence.gga f)).fix.elevation = f.altitude) := by
  constructor
  · intro h
    simp [processSentence, h]
  · intro h
    simp [processSentence, h]

/-- C4 witness: the gate theorem applied at quality 2 (rejected) and at
quality 1 (accepted). -/
theorem gga_fix_quality_gate_witness :
    processSentence env0 sPend (Sentence.gga ggaQ2) = sPend ∧
    (processSentence env0 sPend (Sentence.gga ggaQ1)).locationPending = false ∧
    (processSentence env0 sPend (Sentence.gga ggaQ1)).fix.elevation =
      ggaQ1.altitude :=
  ⟨(gga_fix_quality_gate env0 sPend ggaQ2).1 (by decide),
   ((gga_fix_quality_gate env0 sPend ggaQ1).2 (by decide)).1,
   ((gga_fix_quality_gate env0 sPend ggaQ1).2 (by decide)).2.2.2.2⟩

/-- C5: a line whose two-hex-digit checksum does not match the XOR of its
body decodes to `invalid` (total functions, nothing is raised) and
processing it leaves the driver state — FixState and both pending flags —
unchanged. -/
theorem bad_checksum_invalid_no_mutation (env : Env)
    (typed : List Char → Sentence) (s : DriverState)
    (rest body : List Char) (hd lo : Char) (u v : Nat)
    (hsplit : splitAtStar rest = some (body, [hd, lo]))
    (hu : hexVal hd = some u) (hv : hexVal lo = some v)
    (hbad : bodyChecksum body ≠ u * 16 + v) :
    decodeSentence typed ('$' :: rest) = Sentence.invalid ∧
    processLine env typed s ('$' :: rest) = s := by
  have hc : minmea_check ('$' :: rest) = false := by
    simp [minmea_check, hsplit, hu, hv, hbad]
  refine ⟨?_, ?_⟩
  · simp [decodeSentence, hc]
  · simp [processLine, decodeSentence, hc, processSentence]

/-- C5 witness: the checksum theorem applied at the concrete corrupted line
`$GPXYZ*00` (true body checksum 0x5C). -/
theorem bad_checksum_invalid_no_mutation_witness :
    decodeSentence typed0
      ('$' :: ['G', 'P', 'X', 'Y', 'Z', '*', '0', '0']) = Sentence.invalid ∧
    processLine env0 typed0 s0
      ('$' :: ['G', 'P', 'X', 'Y', 'Z', '*', '0', '0']) = s0 :=
  bad_checksum_invalid_no_mutation env0 typed0 s0
    ['G', 'P', 'X', 'Y', 'Z', '*', '0', '0'] ['G', 'P', 'X', 'Y', 'Z']
    '0' '0' 0 0 (by decide) (by decide) (by decide) (by decide)

/-- C6: processing any parsed ZDA sentence clears only `timePending` and
touches only the time fields — `locationPending` keeps its prior value and
latitude, longitude, elevation, fix label and fix status are unchanged. -/
theorem zda_frame_effect (env : Env) (s : DriverState) (f : ZDAFrame) :
    (processSentence env s (Sentence.zda f)).timePending = false ∧
    (processSentence env s (Sentence.zda f)).locationPending =
      s.locationPending ∧
    (processSentence env s (Sentence.zda f)).fix.latitude = s.fix.latitude ∧
    (processSentence env s (Sentence.zda f)).fix.longitude = s.fix.longitude ∧
    (processSentence env s (Sentence.zda f)).fix.elevation = s.fix.elevation ∧
    (processSentence env s (Sentence.zda f)).fix.fixLabel = s.fix.fixLabel ∧
    (processSentence env s (Sentence.zda f)).fix.fixStatus = s.fix.fixStatus := by
  simp [processSentence]

/-- C7 counterexample: MAX_TIMEOUT_COUNT + 1 = 6 consecutive timeouts from a
zero counter drive no reconnect at all and leave the counter at 6 — the
post-increment comparison `timeoutCounter++ > MAX_TIMEOUT_COUNT` needs a
seventh timeout before it fires. -/
theorem six_timeouts_no_reconnect_cex :
    (runLoop env0 typed0 s0
       (List.replicate (MAX_TIMEOUT_COUNT + 1) ReadResult.timeout)).reconnects
      ≠ 1 ∧
    (runLoop env0 typed0 s0
       (List.replicate (MAX_TIMEOUT_COUNT + 1) ReadResult.timeout)).reconnects
      = 0 ∧
    (runLoop env0 typed0 s0
       (List.replicate (MAX_TIMEOUT_COUNT + 1) ReadResult.timeout)).state.timeoutCounter
      = MAX_TIMEOUT_COUNT + 1 := by
  decide

/-- C7 (amended): starting from timeout counter 0, the first
MAX_TIMEOUT_COUNT + 1 consecutive timeouts each just continue the loop —
no reconnect and no sleep — leaving the counter at MAX_TIMEOUT_COUNT + 1;
a run of MAX_TIMEOUT_COUNT + 2 consecutive timeouts triggers exactly one
forced disconnect-and-reconnect (with its 5-second cooldown as the only
sleep), leaves the counter at 0, and preserves the accumulated fix. -/
theorem timeout_threshold_reconnect (env : Env)
    (typed : List Char → Sentence) (s : DriverState)
    (hc : s.connected = true) (h0 : s.timeoutCounter = 0) :
    (runLoop env typed s
       (List.replicate (MAX_TIMEOUT_COUNT + 1) ReadResult.timeout)).reconnects
      = 0 ∧
    (runLoop env typed s
       (List.replicate (MAX_TIMEOUT_COUNT + 1) ReadResult.timeout)).sleepTotal
      = 0 ∧
    (runLoop env typed s
       (List.replicate (MAX_TIMEOUT_COUNT + 1) ReadResult.timeout)).state.timeoutCounter
      = MAX_TIMEOUT_COUNT + 1 ∧
    (runLoop env typed s
       (List.replicate (MAX_TIMEOUT_COUNT + 2) ReadResult.timeout)).reconnects
      = 1 ∧
    (runLoop env typed s
       (List.replicate (MAX_TIMEOUT_COUNT + 2) ReadResult.timeout)).sleepTotal
      = 5 ∧
    (runLoop env typed s
       (List.replicate (MAX_TIMEOUT_COUNT + 2) ReadResult.timeout)).state.timeoutCounter
      = 0 ∧
    (runLoop env typed s
       (List.replicate (MAX_TIMEOUT_COUNT + 2) ReadResult.timeout)).state.fix
      = s.fix := by
  simp [MAX_TIMEOUT_COUNT, List.replicate, runLoop, loopStep, hc, h0]

/-- C7 witness: the threshold theorem applied at the concrete initial
state. -/
theorem timeout_threshold_reconnect_witness :
    (runLoop env0 typed0 s0
       (List.replicate (MAX_TIMEOUT_COUNT + 1) ReadResult.timeout)).reconnects
      = 0 ∧
    (runLoop env0 typed0 s0
       (List.replicate (MAX_TIMEOUT_COUNT + 1) ReadResult.timeout)).sleepTotal
      = 0 ∧
    (runLoop env0 typed0 s0
       (List.replicate (MAX_TIMEOUT_COUNT + 1) ReadResult.timeout)).state.timeoutCounter
      = MAX_TIMEOUT_COUNT + 1 ∧
    (runLoop env0 typed0 s0
       (List.replicate (MAX_TIMEOUT_COUNT + 2) ReadResult.timeout)).reconnects
      = 1 ∧
    (runLoop env0 typed0 s0
       (List.replicate (MAX_TIMEOUT_COUNT + 2) ReadResult.timeout)).sleepTotal
      = 5 ∧
    (runLoop env0 typed0 s0
       (List.replicate (MAX_TIMEOUT_COUNT + 2) ReadResult.timeout)).state.timeoutCounter
      = 0 ∧
    (runLoop env0 typed0 s0
       (List.replicate (MAX_TIMEOUT_COUNT + 2) ReadResult.timeout)).state.fix
      = s0.fix :=
  timeout_threshold_reconnect env0 typed0 s0 rfl rfl

/-- Concrete driver state whose timeout counter is mid-count at 3. -/
def sCount3 : DriverState := { s0 with timeoutCounter := 3 }

/-- C8 counterexample: a ConnectionRefused-triggered reconnect does not
reset the timeout counter — from counter 3 the reconnect happens and the
counter is still 3. -/
theorem connrefused_reconnect_keeps_counter_cex :
    (loopStep env0 typed0 sCount3 ReadResult.connRefused).reconnected = true ∧
    (loopStep env0 typed0 sCount3 ReadResult.connRefused).state.timeoutCounter
      = 3 ∧
    (loopStep env0 typed0 sCount3 ReadResult.connRefused).state.timeoutCounter
      ≠ 0 := by
  decide

/-- C8 (amended): the timeout counter is reset to zero only by the
Timeout-threshold-triggered reconnect; a ConnectionRefused-triggered
reconnect leaves the counter exactly as it was. -/
theorem reconnect_counter_reset (env : Env)
    (typed : List Char → Sentence) (s : DriverState) :
    (s.timeoutCounter > MAX_TIMEOUT_COUNT →
       (loopStep env typed s ReadResult.timeout).reconnected = true ∧
       (loopStep env typed s ReadResult.timeout).state.timeoutCounter = 0) ∧
    ((loopStep env typed s ReadResult.connRefused).reconnected = true ∧
     (loopStep env typed s ReadResult.connRefused).state.timeoutCounter =
       s.timeoutCounter) := by
  constructor
  · intro h
    simp [loopStep, h]
  · simp [loopStep]

/-- Concrete driver state whose timeout counter is past the maximum. -/
def sCount6 : DriverState := { s0 with timeoutCounter := 6 }

/-- C8 witness: the counter-reset theorem applied at counter 6 (timeout
branch fires) and at the ConnectionRefused branch. -/
theorem reconnect_counter_reset_witness :
    ((loopStep env0 typed0 sCount6 ReadResult.timeout).reconnected = true ∧
     (loopStep env0 typed0 sCount6 ReadResult.timeout).state.timeoutCounter
       = 0) ∧
    ((loopStep env0 typed0 sCount6 ReadResult.connRefused).reconnected = true ∧
     (loopStep env0 typed0 sCount6 ReadResult.connRefused).state.timeoutCounter
       = sCount6.timeoutCounter) :=
  ⟨(reconnect_counter_reset env0 typed0 sCount6).1 (by decide),
   (reconnect_counter_reset env0 typed0 sCount6).2⟩

/-- C9: an Overflow read failure marks the driver disconnected and
terminates the loop at once — the trailing schedule is never consumed, no
reconnect cycle and no sleep happen, and the accumulated fix (with the
pending flags) is preserved verbatim in the final state. -/
theorem overflow_terminates_loop (env : Env)
    (typed : List Char → Sentence) (s : DriverState)
    (rest : List ReadResult) (hc : s.connected = true) :
    runLoop env typed s (ReadResult.overflow :: rest) =
      { state := { s with connected := false }, reconnects := 0,
        sleepTotal := 0, terminated := true } := by
  simp [runLoop, loopStep, hc]

/-- C9 witness: the overflow theorem applied with a pending schedule of two
more reads that are provably never consumed. -/
theorem overflow_terminates_loop_witness :
    runLoop env0 typed0 s0
      (ReadResult.overflow :: [ReadResult.timeout, ReadResult.connRefused]) =
      { state := { s0 with connected := false }, reconnects := 0,
        sleepTotal := 0, terminated := true } :=
  overflow_terminates_loop env0 typed0 s0
    [ReadResult.timeout, ReadResult.connRefused] rfl

/-- C10: the ZDA path is unconditional — every structurally parseable ZDA
frame, with no validity or quality check consulted and without even
checking the date/time derivation result, overwrites the stored UTC
timestamp and UTC offset, invokes the system-clock-set collaborator, and
clears `timePending`. -/
theorem zda_unconditional_apply (env : Env) (s : DriverState) (f : ZDAFrame) :
    processSentence env s (Sentence.zda f) =
      { s with
          fix := { s.fix with
                     utcTimestamp := (minmea_gettime f.date f.time).getD env.junk,
                     utcOffset := offsetHours env.gmtoff },
          systemClock := some ((minmea_gettime f.date f.time).getD env.junk),
          timePending := false } := by
  simp [processSentence]
